import Mathlib

/-!
Verification development for the serve-event-listener repository.

The Python sources are shallowly embedded as executable Lean definitions:

* external effects (DNS lookups, HTTP responses, the Kubernetes API, clock
  readings) are passed in as explicit inputs or oracle functions;
* Python exceptions are modelled with `Except` over the `PyError` type;
* timestamps are modelled as integers (epoch milliseconds); only their order
  matters to the verified properties;
* each definition carries a comment naming the source function it embeds.
-/

namespace ServeEventListener

/-- Python exception classes that the embedded code can raise. -/
inductive PyError where
  | keyError
  | typeError
  | valueError
  deriving DecidableEq, Repr

/-! ### Availability prober

Embedding of `serve_event_listener/probing.py`.  DNS resolution and the
HTTP GET are external effects, passed in as inputs: `hasHost` is whether
`urlparse(url).hostname` is non-empty, `dnsOk` is whether
`socket.getaddrinfo` succeeds, and `resp` is the status code returned by
`http_get` (`none` models the `None` returned on transport errors). -/

/-- Probe classification statuses, from `el_types.ProbeStatus`. -/
inductive ProbeStatusT where
  | running
  | unknown
  | notFound
  deriving DecidableEq, Repr

/-- Embeds the `ProbeResult` dataclass of `probing.py`. -/
structure ProbeResult where
  status : ProbeStatusT
  port80_status : Option Nat
  note : String
  deriving DecidableEq, Repr

/-- Embeds `AppAvailabilityProbe._dns_resolves`: false when the URL has no
host or when `socket.getaddrinfo` raises `gaierror`. -/
def dns_resolves (hasHost dnsOk : Bool) : Bool :=
  hasHost && dnsOk

/-- Embeds `AppAvailabilityProbe.probe_url`. -/
def probe_url (hasHost dnsOk : Bool) (resp : Option Nat) : ProbeResult :=
  if dns_resolves hasHost dnsOk = false then
    { status := ProbeStatusT.notFound, port80_status := none,
      note := "DNS resolution failed" }
  else
    match resp with
    | some code =>
        if 200 ≤ code ∧ code < 400 then
          { status := ProbeStatusT.running, port80_status := some code,
            note := "HTTP 2xx/3xx" }
        else
          { status := ProbeStatusT.unknown, port80_status := some code,
            note := "DNS ok; no 2xx/3xx (refused/timeout/4xx/5xx)" }
    | none =>
        { status := ProbeStatusT.unknown, port80_status := none,
          note := "DNS ok; no 2xx/3xx (refused/timeout/4xx/5xx)" }

/-! ### Watch-loop error classification

Embedding of the `except` clauses of `EventListener.listen`
(`serve_event_listener/event_listener.py`, lines 202-252). -/

/-- Exception classes distinguished by the `except` clauses of `listen`. -/
inductive ListenError where
  | protocolError
  | apiException (status : Nat)
  | valueError
  | httpError
  | otherException
  deriving DecidableEq, Repr

/-- Maps an embedded Python error raised in the loop body onto the `except`
clause of `listen` that catches it (`KeyError` and `TypeError` only match
the final catch-all `except Exception`). -/
def listen_error_class : PyError → ListenError
  | PyError.keyError => ListenError.otherException
  | PyError.typeError => ListenError.otherException
  | PyError.valueError => ListenError.valueError

/-- Effect of one `except` clause of `EventListener.listen` on the loop
state: the stored resource version, the retry counter, the seconds slept
before the next iteration, and whether the clause stops the egress queue
and breaks out of the loop. -/
structure HandlerOutcome where
  resource_version : Option String
  retries : Nat
  sleep_seconds : Nat
  stop_queue_and_break : Bool
  deriving DecidableEq, Repr

/-- Embeds the `except` clauses of `EventListener.listen`: every
`ApiException` branch, including the 410 branch, falls through to the
shared `time.sleep(retry_delay)` call (retry_delay is 3 seconds). -/
def handle_listen_error : ListenError → Option String → Nat → HandlerOutcome
  | ListenError.protocolError, rv, r => ⟨rv, r + 1, 3, false⟩
  | ListenError.apiException s, rv, r =>
      if s = 410 then ⟨none, r, 3, false⟩
      else if s = 401 ∨ s = 403 then ⟨rv, r + 1, 3, false⟩
      else if 500 ≤ s ∧ s < 600 then ⟨rv, r + 1, 3, false⟩
      else ⟨rv, r + 1, 3, false⟩
  | ListenError.valueError, rv, r => ⟨rv, r + 1, 0, false⟩
  | ListenError.httpError, rv, r => ⟨rv, r, 5, false⟩
  | ListenError.otherException, rv, r => ⟨rv, r, 0, true⟩

/-- Embeds the cursor logic at the top of the `while` loop of `listen`:
`if not self.resource_version:` fetch one from a fresh pod list
(`get_resource_version_from_pod_list`); `freshListRv` is the
`metadata.resource_version` of that pod list. -/
def next_watch_resource_version (rv : Option String) (freshListRv : String) : String :=
  match rv with
  | none => freshListRv
  | some s => if s = "" then freshListRv else s

/-! ### Claim C8: probe classification -/

/-- C8: for every URL probed by the availability prober: no host or DNS
failure gives NotFound; an HTTP status in 2xx or 3xx gives Running with
that status code; any other response or a transport error (None response)
gives Unknown. -/
theorem c8_probe_classification (hasHost dnsOk : Bool) (resp : Option Nat) :
    (¬ (hasHost = true ∧ dnsOk = true) →
      probe_url hasHost dnsOk resp =
        { status := ProbeStatusT.notFound, port80_status := none,
          note := "DNS resolution failed" })
    ∧ (∀ c : Nat, hasHost = true → dnsOk = true → resp = some c →
        200 ≤ c → c < 400 →
        probe_url hasHost dnsOk resp =
          { status := ProbeStatusT.running, port80_status := some c,
            note := "HTTP 2xx/3xx" })
    ∧ (∀ c : Nat, hasHost = true → dnsOk = true → resp = some c →
        (c < 200 ∨ 400 ≤ c) →
        (probe_url hasHost dnsOk resp).status = ProbeStatusT.unknown ∧
        (probe_url hasHost dnsOk resp).port80_status = some c)
    ∧ (hasHost = true → dnsOk = true → resp = none →
        (probe_url hasHost dnsOk resp).status = ProbeStatusT.unknown ∧
        (probe_url hasHost dnsOk resp).port80_status = none) := by
  refine ⟨?_, ?_, ?_, ?_⟩
  · intro h
    have : dns_resolves hasHost dnsOk = false := by
      cases hasHost <;> cases dnsOk <;> simp_all [dns_resolves]
    simp [probe_url, this]
  · intro c hh hd hr h1 h2
    subst hh; subst hd; subst hr
    simp [probe_url, dns_resolves]
    omega
  · intro c hh hd hr h1
    subst hh; subst hd; subst hr
    have : ¬ (200 ≤ c ∧ c < 400) := by omega
    simp [probe_url, dns_resolves, this]
  · intro hh hd hr
    subst hh; subst hd; subst hr
    simp [probe_url, dns_resolves]

/-- Witness for C8 at concrete inputs: DNS failure, a 200 response, a 500
response and a transport error. -/
theorem c8_probe_classification_witness :
    (probe_url false true (some 200) =
      { status := ProbeStatusT.notFound, port80_status := none,
        note := "DNS resolution failed" })
    ∧ (probe_url true true (some 301) =
        { status := ProbeStatusT.running, port80_status := some 301,
          note := "HTTP 2xx/3xx" })
    ∧ ((probe_url true true (some 503)).status = ProbeStatusT.unknown ∧
        (probe_url true true (some 503)).port80_status = some 503)
    ∧ ((probe_url true true none).status = ProbeStatusT.unknown ∧
        (probe_url true true none).port80_status = none) :=
  ⟨(c8_probe_classification false true (some 200)).1 (by simp),
   (c8_probe_classification true true (some 301)).2.1 301 rfl rfl rfl
     (by omega) (by omega),
   (c8_probe_classification true true (some 503)).2.2.1 503 rfl rfl rfl
     (Or.inr (by omega)),
   (c8_probe_classification true true none).2.2.2 rfl rfl rfl⟩

/-! ### Claim C9: 410 Gone handling -/

/-- C9 counterexample: the claim says the watch loop reconnects
immediately after a 410 Gone, but the 410 branch of `listen` falls
through to the shared `time.sleep(retry_delay)` and sleeps 3 seconds
before reconnecting. -/
theorem c9_gone_sleeps_counterexample :
    (handle_listen_error (ListenError.apiException 410) (some "rv-1") 0).sleep_seconds = 3
    ∧ (handle_listen_error (ListenError.apiException 410) (some "rv-1") 0).sleep_seconds ≠ 0 := by
  decide

/-- C9 amended: on an API error with status 410 Gone the watch loop clears
the stored resource_version and does not increment the retry counter, but
it sleeps the standard retry_delay (3 s) before reconnecting rather than
reconnecting immediately; the next watch call then uses a resource version
obtained from a fresh pod list. -/
theorem c9_gone_clears_cursor (rv : Option String) (r : Nat) (freshListRv : String) :
    handle_listen_error (ListenError.apiException 410) rv r = ⟨none, r, 3, false⟩
    ∧ next_watch_resource_version none freshListRv = freshListRv := by
  constructor
  · simp [handle_listen_error]
  · rfl

/-! ### HTTP caller

Embedding of `_request` in `serve_event_listener/http_client/client.py`.
The network is an oracle `respond : Nat → HttpOutcome` giving the outcome
of the n-th request issued inside the call (a status code, or a transport
exception caught by the wrapper), and `fetch : Nat → String` gives the
value returned by the n-th invocation of `token_fetcher` (the empty
string models a falsy token). -/

/-- Outcome of one `session.request` call: an HTTP status code, or one of
the `requests` exceptions caught at the bottom of `_request`. -/
inductive HttpOutcome where
  | transportError
  | code (c : Nat)
  deriving DecidableEq, Repr

/-- Status code carried by an outcome, if any. -/
def outcomeCode : HttpOutcome → Option Nat
  | HttpOutcome.transportError => none
  | HttpOutcome.code c => some c

/-- Observable behaviour of one `_request` call: the Authorization header
sent with each request in order, the sleeps performed between attempts,
how many times `token_fetcher` was invoked, and the returned value
(`none` embeds the Python `None` result). -/
structure RequestTrace where
  attempts : List (Option String)
  sleeps : List Nat
  fetches : Nat
  result : Option Nat
  deriving DecidableEq, Repr

/-- Embeds the `for i, delay in enumerate(backoff_seconds)` loop of
`_request`: `bs` is the remaining backoff schedule, `k` the index of the
next request, `fc` the number of fetcher calls made so far, `refreshed`
the one-shot token-refresh flag, `auth` the current Authorization header
and `last` the response to return when the schedule runs out. -/
def request_attempts (respond : Nat → HttpOutcome) (fetch : Nat → String)
    (hasFetcher : Bool) :
    List Nat → Nat → Nat → Bool → Option String → Option Nat → RequestTrace
  | [], _, fc, _, _, last => ⟨[], [], fc, last⟩
  | d :: rest, k, fc, refreshed, auth, _last =>
    match respond k with
    | HttpOutcome.transportError => ⟨[auth], [], fc, none⟩
    | HttpOutcome.code c =>
      if 200 ≤ c ∧ c < 300 then ⟨[auth], [], fc, some c⟩
      else if c = 400 ∨ c = 404 then ⟨[auth], [], fc, some c⟩
      else if (c = 401 ∨ c = 403) ∧ hasFetcher = true ∧ refreshed = false then
        let tok := fetch fc
        let auth1 := if tok ≠ "" then some ("Token " ++ tok) else auth
        let t := request_attempts respond fetch hasFetcher rest (k + 1) (fc + 1)
                   true auth1 (some c)
        ⟨auth :: t.attempts, d :: t.sleeps, t.fetches, t.result⟩
      else if 500 ≤ c ∧ c < 600 then
        if rest = [] then ⟨[auth], [], fc, some c⟩
        else
          let t := request_attempts respond fetch hasFetcher rest (k + 1) fc
                     refreshed auth (some c)
          ⟨auth :: t.attempts, d :: t.sleeps, t.fetches, t.result⟩
      else ⟨[auth], [], fc, some c⟩

/-- Priming step of `_request`: when a fetcher is supplied and no
Authorization header is present in the merged headers, one initial token
fetch primes the header before the attempt loop starts. -/
def request_start (fetch : Nat → String) (hasFetcher : Bool)
    (initAuth : Option String) : Option String × Nat :=
  if hasFetcher = true ∧ initAuth = none then
    (if fetch 0 ≠ "" then some ("Token " ++ fetch 0) else none, 1)
  else (initAuth, 0)

/-- Trace of a `_request` call with a non-empty backoff schedule. -/
def request_trace (respond : Nat → HttpOutcome) (fetch : Nat → String)
    (hasFetcher : Bool) (initAuth : Option String) (backoff : List Nat) :
    RequestTrace :=
  request_attempts respond fetch hasFetcher backoff 0
    (request_start fetch hasFetcher initAuth).2 false
    (request_start fetch hasFetcher initAuth).1 none

/-- Embeds `_request` itself: an empty backoff schedule raises ValueError;
otherwise the primed attempt loop runs and its last response (or `none`
after a transport exception) is returned. -/
def _request (respond : Nat → HttpOutcome) (fetch : Nat → String)
    (hasFetcher : Bool) (initAuth : Option String) (backoff : List Nat) :
    Except PyError RequestTrace :=
  if backoff = [] then Except.error PyError.valueError
  else Except.ok (request_trace respond fetch hasFetcher initAuth backoff)

/-- The `last` argument of `request_attempts` is only read when the
schedule is already empty, so runs over a non-empty schedule do not
depend on it. -/
theorem request_attempts_last_irrel (respond : Nat → HttpOutcome)
    (fetch : Nat → String) (hasFetcher : Bool) (d : Nat) (rest : List Nat)
    (k fc : Nat) (refreshed : Bool) (auth : Option String)
    (l₁ l₂ : Option Nat) :
    request_attempts respond fetch hasFetcher (d :: rest) k fc refreshed auth l₁ =
    request_attempts respond fetch hasFetcher (d :: rest) k fc refreshed auth l₂ := by
  simp only [request_attempts]

/-- A run that starts with the refresh flag already set never calls the
fetcher again. -/
theorem request_attempts_refreshed_fetches (respond : Nat → HttpOutcome)
    (fetch : Nat → String) (hasFetcher : Bool) :
    ∀ (bs : List Nat) (k fc : Nat) (auth : Option String) (last : Option Nat),
      (request_attempts respond fetch hasFetcher bs k fc true auth last).fetches = fc := by
  intro bs
  induction bs with
  | nil => intro k fc auth last; simp [request_attempts]
  | cons d rest ih =>
    intro k fc auth last
    simp only [request_attempts]
    cases respond k with
    | transportError => rfl
    | code c =>
      by_cases h1 : 200 ≤ c ∧ c < 300
      · simp [h1]
      · by_cases h2 : c = 400 ∨ c = 404
        · simp [h1, h2]
        · by_cases h3 : 500 ≤ c ∧ c < 600
          · by_cases h4 : rest = []
            · simp [h1, h2, h3, h4]
            · simp [h1, h2, h3, h4, ih]
          · simp [h1, h2, h3]

/-- In any run, the fetcher is called at most once beyond the calls
already counted, and not at all when the refresh flag is set. -/
theorem request_attempts_fetches_le (respond : Nat → HttpOutcome)
    (fetch : Nat → String) (hasFetcher : Bool) :
    ∀ (bs : List Nat) (k fc : Nat) (refreshed : Bool) (auth : Option String)
      (last : Option Nat),
      (request_attempts respond fetch hasFetcher bs k fc refreshed auth last).fetches
        ≤ fc + (if refreshed = true then 0 else 1) := by
  intro bs
  induction bs with
  | nil => intro k fc refreshed auth last; simp [request_attempts]
  | cons d rest ih =>
    intro k fc refreshed auth last
    simp only [request_attempts]
    cases respond k with
    | transportError => simp
    | code c =>
      by_cases h1 : 200 ≤ c ∧ c < 300
      · simp [h1]
      · by_cases h2 : c = 400 ∨ c = 404
        · simp [h1, h2]
        · by_cases hr : (c = 401 ∨ c = 403) ∧ hasFetcher = true ∧ refreshed = false
          · have hrf := hr.2.2
            subst hrf
            simp only [h1, h2, hr, if_false, if_true, ite_true, ite_false]
            simp [request_attempts_refreshed_fetches]
          · by_cases h3 : 500 ≤ c ∧ c < 600
            · by_cases h4 : rest = []
              · simp [h1, h2, hr, h3, h4]
              · simp only [h1, h2, hr, h3, h4, if_false, if_true, ite_true, ite_false]
                simpa using ih (k + 1) fc refreshed auth (some c)
            · simp [h1, h2, hr, h3]

/-- Unfolds one loop iteration of `_request` that draws a 5xx response
with further attempts remaining: the loop sleeps the current delay and
retries with unchanged header and flags. -/
theorem request_attempts_5xx_step (respond : Nat → HttpOutcome)
    (fetch : Nat → String) (hasFetcher : Bool) (d : Nat) (rest : List Nat)
    (k fc : Nat) (refreshed : Bool) (auth : Option String) (last : Option Nat)
    (c : Nat) (hc : respond k = HttpOutcome.code c) (hc5 : 500 ≤ c)
    (hc6 : c < 600) (hrest : rest ≠ []) :
    request_attempts respond fetch hasFetcher (d :: rest) k fc refreshed auth last =
      { attempts := auth :: (request_attempts respond fetch hasFetcher rest
          (k + 1) fc refreshed auth (some c)).attempts,
        sleeps := d :: (request_attempts respond fetch hasFetcher rest
          (k + 1) fc refreshed auth (some c)).sleeps,
        fetches := (request_attempts respond fetch hasFetcher rest
          (k + 1) fc refreshed auth (some c)).fetches,
        result := (request_attempts respond fetch hasFetcher rest
          (k + 1) fc refreshed auth (some c)).result } := by
  have h1 : ¬ (200 ≤ c ∧ c < 300) := by omega
  have h2 : ¬ (c = 400 ∨ c = 404) := by omega
  have hr : ¬ ((c = 401 ∨ c = 403) ∧ hasFetcher = true ∧ refreshed = false) := by
    rintro ⟨hc401, -⟩; omega
  have h3 : 500 ≤ c ∧ c < 600 := ⟨hc5, hc6⟩
  conv_lhs => rw [request_attempts]
  simp only [hc, if_neg h1, if_neg h2, if_neg hr, if_pos h3, if_neg hrest]

/-- Unfolds the final loop iteration of `_request` when it draws a 5xx
response: no sleep follows the last attempt and the 5xx response itself is
returned. -/
theorem request_attempts_5xx_last (respond : Nat → HttpOutcome)
    (fetch : Nat → String) (hasFetcher : Bool) (d : Nat) (k fc : Nat)
    (refreshed : Bool) (auth : Option String) (last : Option Nat)
    (c : Nat) (hc : respond k = HttpOutcome.code c) (hc5 : 500 ≤ c)
    (hc6 : c < 600) :
    request_attempts respond fetch hasFetcher [d] k fc refreshed auth last =
      { attempts := [auth], sleeps := [], fetches := fc, result := some c } := by
  have h1 : ¬ (200 ≤ c ∧ c < 300) := by omega
  have h2 : ¬ (c = 400 ∨ c = 404) := by omega
  have hr : ¬ ((c = 401 ∨ c = 403) ∧ hasFetcher = true ∧ refreshed = false) := by
    rintro ⟨hc401, -⟩; omega
  have h3 : 500 ≤ c ∧ c < 600 := ⟨hc5, hc6⟩
  conv_lhs => rw [request_attempts]
  simp only [hc, if_neg h1, if_neg h2, if_neg hr, if_pos h3]
  simp

/-- A run whose every attempt draws a 5xx response uses the whole backoff
schedule, sleeps exactly between consecutive attempts, and returns the
last 5xx response. -/
theorem request_attempts_all_5xx (respond : Nat → HttpOutcome)
    (fetch : Nat → String) (hasFetcher : Bool) :
    ∀ (bs : List Nat) (k fc : Nat) (refreshed : Bool) (auth : Option String)
      (last : Option Nat),
      bs ≠ [] →
      (∀ j, j < bs.length → ∃ c, respond (k + j) = HttpOutcome.code c ∧
        500 ≤ c ∧ c < 600) →
      request_attempts respond fetch hasFetcher bs k fc refreshed auth last =
        { attempts := List.replicate bs.length auth,
          sleeps := bs.dropLast,
          fetches := fc,
          result := outcomeCode (respond (k + (bs.length - 1))) } := by
  intro bs
  induction bs with
  | nil => intro k fc refreshed auth last hne; exact absurd rfl hne
  | cons d rest ih =>
    intro k fc refreshed auth last _hne h5
    obtain ⟨c, hc, hc5, hc6⟩ := h5 0 (by simp)
    rw [Nat.add_zero] at hc
    cases rest with
    | nil =>
      rw [request_attempts_5xx_last respond fetch hasFetcher d k fc refreshed
        auth last c hc hc5 hc6]
      simp [outcomeCode, hc]
    | cons d' rest' =>
      have hrec := ih (k + 1) fc refreshed auth (some c) (by simp)
        (by intro j hj
            have := h5 (j + 1) (by simpa using Nat.succ_lt_succ hj)
            simpa [Nat.add_comm, Nat.add_assoc, Nat.add_left_comm] using this)
      rw [request_attempts_5xx_step respond fetch hasFetcher d (d' :: rest')
        k fc refreshed auth last c hc hc5 hc6 (by simp)]
      rw [hrec]
      simp only [RequestTrace.mk.injEq]
      refine ⟨?_, ?_, trivial, ?_⟩
      · simp [List.replicate_succ]
      · simp [List.dropLast_cons₂]
      · have he : k + 1 + ((d' :: rest').length - 1) =
            k + ((d :: d' :: rest').length - 1) := by
          simp only [List.length_cons]
          omega
        rw [he]

/-- A transport exception on an attempt aborts the loop at once: the
wrapper catches it and returns the Python `None`, with no further
attempts. -/
theorem request_attempts_transport_aborts (respond : Nat → HttpOutcome)
    (fetch : Nat → String) (hasFetcher : Bool) (d : Nat) (rest : List Nat)
    (k fc : Nat) (refreshed : Bool) (auth : Option String) (last : Option Nat)
    (h : respond k = HttpOutcome.transportError) :
    request_attempts respond fetch hasFetcher (d :: rest) k fc refreshed auth last =
      { attempts := [auth], sleeps := [], fetches := fc, result := none } := by
  conv_lhs => rw [request_attempts]
  simp only [h]

/-- A 2xx, 400 or 404 response is returned immediately without any retry
or sleep. -/
theorem request_attempts_immediate_return (respond : Nat → HttpOutcome)
    (fetch : Nat → String) (hasFetcher : Bool) (d : Nat) (rest : List Nat)
    (k fc : Nat) (refreshed : Bool) (auth : Option String) (last : Option Nat)
    (c : Nat) (hc : respond k = HttpOutcome.code c)
    (hcls : (200 ≤ c ∧ c < 300) ∨ c = 400 ∨ c = 404) :
    request_attempts respond fetch hasFetcher (d :: rest) k fc refreshed auth last =
      { attempts := [auth], sleeps := [], fetches := fc, result := some c } := by
  conv_lhs => rw [request_attempts]
  rcases hcls with h2xx | h44
  · simp only [hc, if_pos h2xx]
  · have h1 : ¬ (200 ≤ c ∧ c < 300) := by omega
    simp only [hc, if_neg h1, if_pos h44]

/-! ### Claim C6: retry and failure semantics of the HTTP caller -/

/-- C6 counterexample: the claim says exhausted retries yield the
NetworkError result None, and that transport errors are retried per the
backoff schedule.  The code instead returns the last 5xx response when
the schedule is exhausted, and aborts after a single attempt when a
transport exception occurs (a following 200 is never seen). -/
theorem c6_exhaustion_counterexample :
    (_request (fun _ => HttpOutcome.code 500) (fun _ => "") false none [1, 2, 4] =
      Except.ok { attempts := [none, none, none], sleeps := [1, 2],
                  fetches := 0, result := some 500 })
    ∧ (some 500 ≠ (none : Option Nat))
    ∧ (_request (fun n => if n = 0 then HttpOutcome.transportError else HttpOutcome.code 200)
        (fun _ => "") false none [1, 2, 4] =
      Except.ok { attempts := [none], sleeps := [], fetches := 0, result := none })
    ∧ ((none : Option Nat) ≠ some 200) := by
  refine ⟨?_, by simp, ?_, by simp⟩ <;> rfl

/-- C6 amended: the HTTP caller retries only 5xx responses according to
the supplied backoff schedule, sleeping between consecutive attempts and
never after the last; a 2xx, 400 or 404 response is returned immediately
with no retry; a transport exception aborts the call at once (no retry at
this level) and yields the None result instead of raising; when the 5xx
retries are exhausted the last 5xx response itself is returned, not None. -/
theorem c6_retry_semantics (respond : Nat → HttpOutcome) (fetch : Nat → String)
    (hasFetcher : Bool) (initAuth : Option String) (backoff : List Nat)
    (hne : backoff ≠ []) :
    (_request respond fetch hasFetcher initAuth backoff =
      Except.ok (request_trace respond fetch hasFetcher initAuth backoff))
    ∧ (respond 0 = HttpOutcome.transportError →
        (request_trace respond fetch hasFetcher initAuth backoff).result = none ∧
        (request_trace respond fetch hasFetcher initAuth backoff).attempts.length = 1 ∧
        (request_trace respond fetch hasFetcher initAuth backoff).sleeps = [])
    ∧ (∀ c, respond 0 = HttpOutcome.code c →
        ((200 ≤ c ∧ c < 300) ∨ c = 400 ∨ c = 404) →
        (request_trace respond fetch hasFetcher initAuth backoff).result = some c ∧
        (request_trace respond fetch hasFetcher initAuth backoff).attempts.length = 1 ∧
        (request_trace respond fetch hasFetcher initAuth backoff).sleeps = [])
    ∧ ((∀ j, j < backoff.length → ∃ c, respond j = HttpOutcome.code c ∧
          500 ≤ c ∧ c < 600) →
        (request_trace respond fetch hasFetcher initAuth backoff).result =
          outcomeCode (respond (backoff.length - 1)) ∧
        (request_trace respond fetch hasFetcher initAuth backoff).attempts.length =
          backoff.length ∧
        (request_trace respond fetch hasFetcher initAuth backoff).sleeps =
          backoff.dropLast) := by
  obtain ⟨d, rest, rfl⟩ : ∃ d rest, backoff = d :: rest := by
    cases backoff with
    | nil => exact absurd rfl hne
    | cons d rest => exact ⟨d, rest, rfl⟩
  refine ⟨by simp [_request], ?_, ?_, ?_⟩
  · intro h
    rw [request_trace, request_attempts_transport_aborts respond fetch hasFetcher
      d rest 0 _ false _ none h]
    simp
  · intro c hc hcls
    rw [request_trace, request_attempts_immediate_return respond fetch hasFetcher
      d rest 0 _ false _ none c hc hcls]
    simp
  · intro h5
    rw [request_trace, request_attempts_all_5xx respond fetch hasFetcher
      (d :: rest) 0 _ false _ none (by simp) (by simpa using h5)]
    simp

/-- Witness for C6 at concrete inputs: an immediate 404 return and a 5xx
run through the default schedule. -/
theorem c6_retry_semantics_witness :
    ((request_trace (fun _ => HttpOutcome.code 404) (fun _ => "") false none
        [1, 2, 4]).result = some 404 ∧
      (request_trace (fun _ => HttpOutcome.code 404) (fun _ => "") false none
        [1, 2, 4]).attempts.length = 1 ∧
      (request_trace (fun _ => HttpOutcome.code 404) (fun _ => "") false none
        [1, 2, 4]).sleeps = [])
    ∧ ((request_trace (fun _ => HttpOutcome.code 503) (fun _ => "") false none
        [1, 2, 4]).result = outcomeCode (HttpOutcome.code 503) ∧
      (request_trace (fun _ => HttpOutcome.code 503) (fun _ => "") false none
        [1, 2, 4]).attempts.length = 3 ∧
      (request_trace (fun _ => HttpOutcome.code 503) (fun _ => "") false none
        [1, 2, 4]).sleeps = [1, 2]) :=
  ⟨(c6_retry_semantics (fun _ => HttpOutcome.code 404) (fun _ => "") false none
      [1, 2, 4] (by simp)).2.2.1 404 rfl (by omega),
   (c6_retry_semantics (fun _ => HttpOutcome.code 503) (fun _ => "") false none
      [1, 2, 4] (by simp)).2.2.2
     (by intro j hj; exact ⟨503, rfl, by omega, by omega⟩)⟩

/-- The first request of any run is sent with the Authorization header the
run starts with. -/
theorem request_attempts_attempts_head (respond : Nat → HttpOutcome)
    (fetch : Nat → String) (hasFetcher : Bool) (d : Nat) (rest : List Nat)
    (k fc : Nat) (refreshed : Bool) (auth : Option String) (last : Option Nat) :
    (request_attempts respond fetch hasFetcher (d :: rest) k fc refreshed auth
      last).attempts.head? = some auth := by
  rw [request_attempts]
  cases respond k with
  | transportError => rfl
  | code c =>
    by_cases h1 : 200 ≤ c ∧ c < 300
    · simp [h1]
    · by_cases h2 : c = 400 ∨ c = 404
      · simp [h1, h2]
      · by_cases hr : (c = 401 ∨ c = 403) ∧ hasFetcher = true ∧ refreshed = false
        · simp [h1, h2, hr]
        · by_cases h3 : 500 ≤ c ∧ c < 600
          · by_cases h4 : rest = []
            · simp [h1, h2, hr, h3, h4]
            · simp [h1, h2, hr, h3, h4]
          · simp [h1, h2, hr, h3]

/-- Peels a prefix of 5xx attempts off a run: each one sleeps its delay
and retries with unchanged header, flags and fetch count. -/
theorem request_attempts_5xx_prefix (respond : Nat → HttpOutcome)
    (fetch : Nat → String) (hasFetcher : Bool) :
    ∀ (pre rest : List Nat) (k fc : Nat) (refreshed : Bool)
      (auth : Option String) (last : Option Nat),
      rest ≠ [] →
      (∀ j, j < pre.length → ∃ c, respond (k + j) = HttpOutcome.code c ∧
        500 ≤ c ∧ c < 600) →
      request_attempts respond fetch hasFetcher (pre ++ rest) k fc refreshed auth last =
        { attempts := List.replicate pre.length auth ++
            (request_attempts respond fetch hasFetcher rest (k + pre.length)
              fc refreshed auth last).attempts,
          sleeps := pre ++ (request_attempts respond fetch hasFetcher rest
            (k + pre.length) fc refreshed auth last).sleeps,
          fetches := (request_attempts respond fetch hasFetcher rest
            (k + pre.length) fc refreshed auth last).fetches,
          result := (request_attempts respond fetch hasFetcher rest
            (k + pre.length) fc refreshed auth last).result } := by
  intro pre
  induction pre with
  | nil => intro rest k fc refreshed auth last hne _h5; simp
  | cons p pre' ih =>
    intro rest k fc refreshed auth last hne h5
    obtain ⟨c, hc, hc5, hc6⟩ := h5 0 (by simp)
    rw [Nat.add_zero] at hc
    have hne2 : pre' ++ rest ≠ [] := by
      intro hcontra
      exact hne (List.append_eq_nil.mp hcontra).2
    rw [List.cons_append, request_attempts_5xx_step respond fetch hasFetcher p
      (pre' ++ rest) k fc refreshed auth last c hc hc5 hc6 hne2]
    have hih := ih rest (k + 1) fc refreshed auth (some c) hne
      (by intro j hj
          have := h5 (j + 1) (by simpa using Nat.succ_lt_succ hj)
          simpa [Nat.add_comm, Nat.add_assoc, Nat.add_left_comm] using this)
    rw [hih]
    obtain ⟨r0, rs, rfl⟩ : ∃ r0 rs, rest = r0 :: rs := by
      cases rest with
      | nil => exact absurd rfl hne
      | cons r0 rs => exact ⟨r0, rs, rfl⟩
    rw [request_attempts_last_irrel respond fetch hasFetcher r0 rs
      (k + 1 + pre'.length) fc refreshed auth (some c) last]
    have hk : k + 1 + pre'.length = k + (p :: pre').length := by
      simp only [List.length_cons]
      omega
    rw [hk]
    simp [List.replicate_succ]

/-- Unfolds one loop iteration of `_request` that draws a 401 or 403 while
a fetcher is supplied and no refresh has happened yet: the fetcher is
invoked once, the Authorization header is replaced by the fresh token, the
loop sleeps the current delay and continues with the refresh flag set. -/
theorem request_attempts_401_step (respond : Nat → HttpOutcome)
    (fetch : Nat → String) (d : Nat) (rest : List Nat) (k fc : Nat)
    (auth : Option String) (last : Option Nat) (c : Nat)
    (hc : respond k = HttpOutcome.code c) (h401 : c = 401 ∨ c = 403)
    (htok : fetch fc ≠ "") :
    request_attempts respond fetch true (d :: rest) k fc false auth last =
      { attempts := auth :: (request_attempts respond fetch true rest (k + 1)
          (fc + 1) true (some ("Token " ++ fetch fc)) (some c)).attempts,
        sleeps := d :: (request_attempts respond fetch true rest (k + 1)
          (fc + 1) true (some ("Token " ++ fetch fc)) (some c)).sleeps,
        fetches := (request_attempts respond fetch true rest (k + 1)
          (fc + 1) true (some ("Token " ++ fetch fc)) (some c)).fetches,
        result := (request_attempts respond fetch true rest (k + 1)
          (fc + 1) true (some ("Token " ++ fetch fc)) (some c)).result } := by
  have h1 : ¬ (200 ≤ c ∧ c < 300) := by omega
  have h2 : ¬ (c = 400 ∨ c = 404) := by omega
  conv_lhs => rw [request_attempts]
  simp only [hc, if_neg h1, if_neg h2]
  have hcond : (c = 401 ∨ c = 403) ∧ True ∧ True := ⟨h401, trivial, trivial⟩
  simp only [if_pos hcond, if_pos htok]

/-- Once the refresh flag is set, a further 401 or 403 response is
returned as-is. -/
theorem request_attempts_refreshed_401_return (respond : Nat → HttpOutcome)
    (fetch : Nat → String) (hasFetcher : Bool) (d : Nat) (rest : List Nat)
    (k fc : Nat) (auth : Option String) (last : Option Nat) (c : Nat)
    (hc : respond k = HttpOutcome.code c) (h401 : c = 401 ∨ c = 403) :
    request_attempts respond fetch hasFetcher (d :: rest) k fc true auth last =
      { attempts := [auth], sleeps := [], fetches := fc, result := some c } := by
  have h1 : ¬ (200 ≤ c ∧ c < 300) := by omega
  have h2 : ¬ (c = 400 ∨ c = 404) := by omega
  have hr : ¬ ((c = 401 ∨ c = 403) ∧ hasFetcher = true ∧ (true : Bool) = false) := by
    rintro ⟨-, -, h⟩
    exact absurd h (by simp)
  have h3 : ¬ (500 ≤ c ∧ c < 600) := by omega
  conv_lhs => rw [request_attempts]
  simp only [hc, if_neg h1, if_neg h2, if_neg hr, if_neg h3]

/-- With no fetcher supplied, a 401 or 403 response is returned as-is. -/
theorem request_attempts_401_no_fetcher_return (respond : Nat → HttpOutcome)
    (fetch : Nat → String) (d : Nat) (rest : List Nat) (k fc : Nat)
    (refreshed : Bool) (auth : Option String) (last : Option Nat) (c : Nat)
    (hc : respond k = HttpOutcome.code c) (h401 : c = 401 ∨ c = 403) :
    request_attempts respond fetch false (d :: rest) k fc refreshed auth last =
      { attempts := [auth], sleeps := [], fetches := fc, result := some c } := by
  have h1 : ¬ (200 ≤ c ∧ c < 300) := by omega
  have h2 : ¬ (c = 400 ∨ c = 404) := by omega
  have hr : ¬ ((c = 401 ∨ c = 403) ∧ (false : Bool) = true ∧ refreshed = false) := by
    rintro ⟨-, h, -⟩
    exact absurd h (by simp)
  have h3 : ¬ (500 ≤ c ∧ c < 600) := by omega
  conv_lhs => rw [request_attempts]
  simp only [hc, if_neg h1, if_neg h2, if_neg hr, if_neg h3]

/-! ### Claim C7: token refresh on 401/403 -/

/-- C7 counterexample: when the first 401 arrives on the final scheduled
attempt (here after two 500s with the default schedule), the code fetches
a fresh token and sets the refresh flag, but the loop is exhausted, so no
retry carrying the fresh token is ever sent: three requests go out, all
with the old header, and the 401 response itself is returned. -/
theorem c7_refresh_no_retry_counterexample :
    (request_trace
        (fun n => if n = 2 then HttpOutcome.code 401 else HttpOutcome.code 500)
        (fun _ => "TNEW") true (some "Token TOLD") [1, 2, 4]) =
      { attempts := [some "Token TOLD", some "Token TOLD", some "Token TOLD"],
        sleeps := [1, 2, 4], fetches := 1, result := some 401 }
    ∧ ([some "Token TOLD", some "Token TOLD", some "Token TOLD"] :
        List (Option String)).length = 3 := by
  constructor
  · rfl
  · rfl

/-- C7 amended: on the first 401/403 of a call, when a fetcher is
supplied, a fresh token is fetched and, provided the backoff schedule has
a remaining attempt, the next request carries the fresh Authorization
header; once refreshed, a further 401/403 is returned as-is; with no
fetcher a 401/403 is returned as-is; at most one token refresh happens in
the loop of any call. -/
theorem c7_token_refresh_semantics (respond : Nat → HttpOutcome)
    (fetch : Nat → String) :
    (∀ (pre : List Nat) (d1 d2 : Nat) (post : List Nat) (fc : Nat)
       (auth : Option String) (last : Option Nat) (c : Nat),
      (∀ j, j < pre.length → ∃ c5, respond j = HttpOutcome.code c5 ∧
        500 ≤ c5 ∧ c5 < 600) →
      respond pre.length = HttpOutcome.code c → (c = 401 ∨ c = 403) →
      fetch fc ≠ "" →
      ((request_attempts respond fetch true (pre ++ d1 :: d2 :: post) 0 fc
          false auth last).attempts.get? (pre.length + 1) =
        some (some ("Token " ++ fetch fc)))
      ∧ (request_attempts respond fetch true (pre ++ d1 :: d2 :: post) 0 fc
          false auth last).fetches = fc + 1
      ∧ (∀ c2, respond (pre.length + 1) = HttpOutcome.code c2 →
          (c2 = 401 ∨ c2 = 403) →
          (request_attempts respond fetch true (pre ++ d1 :: d2 :: post) 0 fc
            false auth last).result = some c2 ∧
          (request_attempts respond fetch true (pre ++ d1 :: d2 :: post) 0 fc
            false auth last).attempts.length = pre.length + 2))
    ∧ (∀ (pre : List Nat) (d : Nat) (post : List Nat) (fc : Nat)
        (refreshed : Bool) (auth : Option String) (last : Option Nat) (c : Nat),
      (∀ j, j < pre.length → ∃ c5, respond j = HttpOutcome.code c5 ∧
        500 ≤ c5 ∧ c5 < 600) →
      respond pre.length = HttpOutcome.code c → (c = 401 ∨ c = 403) →
      request_attempts respond fetch false (pre ++ d :: post) 0 fc refreshed
        auth last =
        { attempts := List.replicate pre.length auth ++ [auth],
          sleeps := pre, fetches := fc, result := some c })
    ∧ (∀ (hasFetcher : Bool) (bs : List Nat) (fc : Nat) (auth : Option String)
        (last : Option Nat),
      (request_attempts respond fetch hasFetcher bs 0 fc false auth
        last).fetches ≤ fc + 1) := by
  refine ⟨?_, ?_, ?_⟩
  · intro pre d1 d2 post fc auth last c h5 hc h401 htok
    have hpeel := request_attempts_5xx_prefix respond fetch true pre
      (d1 :: d2 :: post) 0 fc false auth last (by simp) (by simpa using h5)
    simp only [Nat.zero_add] at hpeel
    rw [hpeel, request_attempts_401_step respond fetch d1 (d2 :: post)
      pre.length fc auth last c hc h401 htok]
    refine ⟨?_, ?_, ?_⟩
    · rw [List.get?_eq_getElem?, List.getElem?_append_right (by simp)]
      simp only [List.length_replicate]
      have : pre.length + 1 - pre.length = 1 := by omega
      rw [this]
      rw [List.getElem?_cons_succ, ← List.get?_eq_getElem?, List.get?_zero]
      exact request_attempts_attempts_head respond fetch true d2 post
        (pre.length + 1) (fc + 1) true (some ("Token " ++ fetch fc)) (some c)
    · simp [request_attempts_refreshed_fetches]
    · intro c2 hc2 h4012
      rw [request_attempts_refreshed_401_return respond fetch true d2 post
        (pre.length + 1) (fc + 1) (some ("Token " ++ fetch fc)) (some c) c2
        hc2 h4012]
      constructor
      · rfl
      · simp
  · intro pre d post fc refreshed auth last c h5 hc h401
    have hpeel := request_attempts_5xx_prefix respond fetch false pre
      (d :: post) 0 fc refreshed auth last (by simp) (by simpa using h5)
    simp only [Nat.zero_add] at hpeel
    rw [hpeel, request_attempts_401_no_fetcher_return respond fetch d post
      pre.length fc refreshed auth last c hc h401]
    simp
  · intro hasFetcher bs fc auth last
    have := request_attempts_fetches_le respond fetch hasFetcher bs 0 fc
      false auth last
    simpa using this

/-- Witness for C7 at concrete inputs: a 401 on the first attempt with a
fetcher and two delays remaining, a 403 follow-up after the refresh, a 401
without a fetcher, and the refresh bound. -/
theorem c7_token_refresh_semantics_witness :
    ((request_attempts (fun n => if n = 0 then HttpOutcome.code 401 else HttpOutcome.code 403)
        (fun _ => "T2") true [1, 2] 0 0 false (some "Token T1") none).attempts.get? 1 =
      some (some ("Token " ++ "T2"))
    ∧ (request_attempts (fun n => if n = 0 then HttpOutcome.code 401 else HttpOutcome.code 403)
        (fun _ => "T2") true [1, 2] 0 0 false (some "Token T1") none).fetches = 1
    ∧ ((request_attempts (fun n => if n = 0 then HttpOutcome.code 401 else HttpOutcome.code 403)
        (fun _ => "T2") true [1, 2] 0 0 false (some "Token T1") none).result = some 403 ∧
       (request_attempts (fun n => if n = 0 then HttpOutcome.code 401 else HttpOutcome.code 403)
        (fun _ => "T2") true [1, 2] 0 0 false (some "Token T1") none).attempts.length = 2))
    ∧ (request_attempts (fun n => if n = 0 then HttpOutcome.code 401 else HttpOutcome.code 403)
        (fun _ => "T2") false [7] 0 0 false (some "Token T1") none =
        { attempts := [some "Token T1"], sleeps := [], fetches := 0,
          result := some 401 }) := by
  have h := c7_token_refresh_semantics
    (fun n => if n = 0 then HttpOutcome.code 401 else HttpOutcome.code 403)
    (fun _ => "T2")
  refine ⟨?_, ?_⟩
  · have h1 := h.1 [] 1 2 [] 0 (some "Token T1") none 401
      (by intro j hj; simp at hj) (by rfl) (Or.inl rfl) (by simp)
    exact ⟨h1.1, h1.2.1, h1.2.2 403 (by rfl) (Or.inr rfl)⟩
  · have h2 := h.2.1 [] 7 [] 0 false (some "Token T1") none 401
      (by intro j hj; simp at hj) (by rfl) (Or.inl rfl)
    simpa using h2

/-! ### Status reducer

Embedding of `serve_event_listener/status_data.py`.  Kubernetes container
state objects are projected onto the fields the code reads:
`state.terminated` and `state.waiting` with their `reason` and `message`,
the presence of `state.running`, and the container's `ready` flag. -/

/-- Embeds `V1ContainerStateTerminated` as read by the reducer. -/
structure TermState where
  reason : Option String
  message : Option String
  deriving DecidableEq, Repr

/-- Embeds `V1ContainerStateWaiting` as read by the reducer. -/
structure WaitState where
  reason : Option String
  message : Option String
  deriving DecidableEq, Repr

/-- Embeds `V1ContainerStatus` as read by the reducer: `running` is the
presence of `state.running`. -/
structure ContainerStatus where
  terminated : Option TermState
  waiting : Option WaitState
  running : Bool
  ready : Bool
  deriving DecidableEq, Repr

/-- Embeds `V1PodStatus` as read by the reducer. -/
structure PodK8sStatus where
  message : Option String
  phase : Option String
  init_container_statuses : Option (List ContainerStatus)
  container_statuses : Option (List ContainerStatus)
  deriving DecidableEq, Repr

/-- Embeds the inner `process_container_statuses` of
`StatusData.determine_status_from_k8s` (with `translate_status=False`,
as in every call site).  Note that the Python loop never reaches a second
container: a terminated init container with reason Completed executes
`break`, which skips the `for`-`else` clause and makes the function
return None; every other branch returns a tuple directly. -/
def process_container_statuses (pod_message : String) (init_containers : Bool) :
    List ContainerStatus → Option (Option String × String × String)
  | [] => none
  | c :: _rest =>
    match c.terminated with
    | some t =>
        if init_containers = true ∧ t.reason = some "Completed" then
          none
        else some (t.reason, t.message.getD "", pod_message)
    | none =>
        match c.waiting with
        | some w => some (w.reason, w.message.getD "", pod_message)
        | none =>
            if c.running = true ∧ c.ready = true then
              some (some "Running", "", pod_message)
            else
              some (some "Pending", "", pod_message)

/-- Embeds `StatusData.determine_status_from_k8s` with
`translate_status=False`: init containers first, then regular containers,
then the pod phase. -/
def determine_status_from_k8s (s : PodK8sStatus) :
    Option String × String × String :=
  let pod_message := s.message.getD ""
  let init_result :=
    match s.init_container_statuses with
    | some l => process_container_statuses pod_message true l
    | none => none
  match init_result with
  | some r => r
  | none =>
    let cont_result :=
      match s.container_statuses with
      | some l => process_container_statuses pod_message false l
      | none => none
    match cont_result with
    | some r => r
    | none => (s.phase, "", pod_message)

/-! ### Claim C3: completed init container handling -/

/-- Pod status used in the C3 counterexample: the first init container is
terminated with reason Completed, the second init container is waiting
with reason ImagePullBackOff, there are no regular container statuses and
the pod phase is Pending. -/
def c3Status : PodK8sStatus :=
  { message := some "pm",
    phase := some "Pending",
    init_container_statuses := some
      [ { terminated := some { reason := some "Completed", message := none },
          waiting := none, running := false, ready := false },
        { terminated := none,
          waiting := some { reason := some "ImagePullBackOff",
                            message := some "wait-msg" },
          running := false, ready := false } ],
    container_statuses := none }

/-- C3 counterexample: the claim says the reducer skips the completed init
container and returns the waiting reason of the next init container
(ImagePullBackOff here).  The code executes `break` instead of continuing,
so the remaining init containers are never examined and the pod phase is
returned. -/
theorem c3_completed_init_counterexample :
    determine_status_from_k8s c3Status = (some "Pending", "", "pm")
    ∧ determine_status_from_k8s c3Status ≠
        (some "ImagePullBackOff", "wait-msg", "pm") := by
  constructor
  · rfl
  · decide

/-- C3 amended: when the first init container is terminated with reason
Completed, `determine_status_from_k8s` stops scanning the init container
list entirely (the loop breaks) and derives the status from the regular
container statuses or the pod phase, exactly as if the pod had no init
container list. -/
theorem c3_completed_init_breaks (s : PodK8sStatus) (c : ContainerStatus)
    (rest : List ContainerStatus) (t : TermState)
    (hinit : s.init_container_statuses = some (c :: rest))
    (hterm : c.terminated = some t)
    (hreason : t.reason = some "Completed") :
    determine_status_from_k8s s =
      determine_status_from_k8s { s with init_container_statuses := none } := by
  simp only [determine_status_from_k8s, hinit, process_container_statuses,
    hterm, hreason]
  simp

/-- Witness for C3 amended at the concrete counterexample status. -/
theorem c3_completed_init_breaks_witness :
    determine_status_from_k8s c3Status =
      determine_status_from_k8s
        { c3Status with init_container_statuses := none } :=
  c3_completed_init_breaks c3Status
    { terminated := some { reason := some "Completed", message := none },
      waiting := none, running := false, ready := false }
    [ { terminated := none,
        waiting := some { reason := some "ImagePullBackOff",
                          message := some "wait-msg" },
        running := false, ready := false } ]
    { reason := some "Completed", message := none }
    rfl rfl rfl

/-! ### Status map and `update_or_create_status`

The per-release dictionary `StatusData.status_data` is an association
list keyed by the value of the pod label `release` (which `labels.get`
may return as Python `None`, a legal dictionary key, hence the
`Option String` key type).  Timestamps are epoch milliseconds; the
`event-ts` string written by `get_timestamp_as_str` is modelled by the
current time passed in as `now`. -/

/-- One value of the `status_data` dictionary.  `pod_msg` and
`container_msg` model the `pod-msg` and `container-msg` keys, absent
until `StatusData.update` writes them. -/
structure StoredRecord where
  creation_timestamp : Option Int
  deletion_timestamp : Option Int
  status : Option String
  event_ts : Int
  sent : Bool
  pod_msg : Option String
  container_msg : Option String
  deriving DecidableEq, Repr

/-- The `status_data` dictionary. -/
abbrev StatusMap := List (Option String × StoredRecord)

/-- Dictionary write `m[k] = v`: replaces the binding in place or appends
a new one. -/
def mapSet (m : StatusMap) (k : Option String) (v : StoredRecord) : StatusMap :=
  match m with
  | [] => [(k, v)]
  | kv :: rest => if kv.1 = k then (k, v) :: rest else kv :: mapSet rest k v

/-- Embeds the Python comparison `a >= b` between two optional datetimes:
comparing `None` with a datetime raises TypeError. -/
def pyGe (a b : Option Int) : Except PyError Bool :=
  match a, b with
  | some x, some y => Except.ok (decide (x ≥ y))
  | _, _ => Except.error PyError.typeError

/-- Embeds the Python comparison `a > b` where `a` is a datetime and `b`
an optional datetime. -/
def pyGtOpt (a : Int) (b : Option Int) : Except PyError Bool :=
  match b with
  | some y => Except.ok (decide (a > y))
  | none => Except.error PyError.typeError

/-- Embeds the inner guard `deletion_timestamp > stored_creation or
(creation_timestamp is not None and deletion_timestamp >
creation_timestamp)`, given the already-computed first disjunct `a`. -/
def deletion_guard (a : Bool) (creation : Option Int) (d : Int) : Bool :=
  a || (match creation with
    | some ct => decide (d > ct)
    | none => false)

/-- Status decided by the deletion branch: when the guard holds and the
Kubernetes client is set, at most one remaining pod phase in the release
forces the status to Deleted; otherwise the incoming status stands. -/
def deletion_status (k8sPodPhases : Option (List (Option String)))
    (status : Option String) (guardVal : Bool) : Option String :=
  if guardVal = true then
    match k8sPodPhases with
    | some phases => if phases.length ≤ 1 then some "Deleted" else status
    | none => status
  else status

/-- Embeds the deletion branch of `StatusData.update_or_create_status`
(the body of `if deletion_timestamp is not None:`).  The subscript
`status_data[release]["creation_timestamp"]` is evaluated first and
raises KeyError when the release is not in the map; the optional
remaining-pods check against the Kubernetes API decides whether the
status becomes Deleted, and a deletion timestamp on a record whose status
is not Deleted is cleared. -/
def deletion_adjust (k8sPodPhases : Option (List (Option String)))
    (stored? : Option StoredRecord) (status : Option String)
    (creation : Option Int) (d : Int) :
    Except PyError (Option String × Option Int) :=
  match stored? with
  | none => Except.error PyError.keyError
  | some stored =>
      match pyGtOpt d stored.creation_timestamp with
      | Except.error e => Except.error e
      | Except.ok a =>
          let status1 := deletion_status k8sPodPhases status
            (deletion_guard a creation d)
          let deletion1 :=
            if status1 ≠ some "Deleted" then (none : Option Int) else some d
          Except.ok (status1, deletion1)

/-- Embeds the update guard `release not in status_data or
creation_timestamp >= status_data[release]["creation_timestamp"] or
deletion_timestamp is not None`, with Python short-circuit evaluation:
the middle comparison raises TypeError when either side is None. -/
def update_cond (status_data : StatusMap) (release : Option String)
    (creation deletion : Option Int) : Except PyError Bool :=
  match status_data.lookup release with
  | none => Except.ok true
  | some stored =>
      match pyGe creation stored.creation_timestamp with
      | Except.error e => Except.error e
      | Except.ok ge => Except.ok (ge || deletion.isSome)

/-- Embeds `StatusData.update_or_create_status`.

The Kubernetes API is an oracle: `k8sPodPhases = none` models
`self.k8s_api_client is None`, and `some phases` models a set client for
which `fetch_pod_phases_in_release_from_k8s_api` returns `phases`. -/
def update_or_create_status (k8sPodPhases : Option (List (Option String)))
    (status_data : StatusMap) (status : Option String)
    (release : Option String) (creation_timestamp : Option Int)
    (deletion_timestamp : Option Int) (now : Int) :
    Except PyError StatusMap :=
  match update_cond status_data release creation_timestamp deletion_timestamp with
  | Except.error e => Except.error e
  | Except.ok false => Except.ok status_data
  | Except.ok true =>
      match deletion_timestamp with
      | none =>
          Except.ok (mapSet status_data release
            { creation_timestamp := creation_timestamp,
              deletion_timestamp := none, status := status,
              event_ts := now, sent := false,
              pod_msg := none, container_msg := none })
      | some d =>
          match deletion_adjust k8sPodPhases (status_data.lookup release)
            status creation_timestamp d with
          | Except.error e => Except.error e
          | Except.ok sd =>
              Except.ok (mapSet status_data release
                { creation_timestamp := creation_timestamp,
                  deletion_timestamp := sd.2, status := sd.1,
                  event_ts := now, sent := false,
                  pod_msg := none, container_msg := none })

/-! ### Claim C4: first event of a release carrying a deletion timestamp -/

/-- C4: the claim says `update_or_create_status` inserts a new record and
never raises when the release is absent from the map, also when the first
observed event carries a deletion timestamp.  The code evaluates
`status_data[release]["creation_timestamp"]` inside the deletion branch
before any insertion, which raises KeyError exactly in that case (the
scenario of the repository test `test_pod_delete_nonexisting_pod`). -/
theorem c4_first_deletion_key_error :
    update_or_create_status none [] (some "Terminated") (some "r1234567")
      (some 0) (some 1000) 2000 = Except.error PyError.keyError
    ∧ update_or_create_status none [] (some "Terminated") (some "r1234567")
        (some 0) none 2000 =
      Except.ok [(some "r1234567",
        { creation_timestamp := some 0, deletion_timestamp := none,
          status := some "Terminated", event_ts := 2000, sent := false,
          pod_msg := none, container_msg := none })] := by
  constructor
  · rfl
  · rfl

/-! ### Claim C10: deletion timestamp only on Deleted records -/

/-- The invariant of claim C10: every stored record carries a deletion
timestamp only if its status is Deleted. -/
def DeletionInvariant (m : StatusMap) : Prop :=
  ∀ p ∈ m, p.2.deletion_timestamp.isSome = true → p.2.status = some "Deleted"

instance (m : StatusMap) : Decidable (DeletionInvariant m) := by
  unfold DeletionInvariant
  infer_instance

/-- Every entry of `mapSet m k v` is either `(k, v)` or an entry of `m`. -/
theorem mapSet_mem (m : StatusMap) (k : Option String) (v : StoredRecord) :
    ∀ p ∈ mapSet m k v, p = (k, v) ∨ p ∈ m := by
  induction m with
  | nil => intro p hp; simp [mapSet] at hp; simp [hp]
  | cons kv rest ih =>
    intro p hp
    by_cases hk : kv.1 = k
    · rw [mapSet, if_pos hk] at hp
      rcases List.mem_cons.mp hp with h1 | h1
      · exact Or.inl h1
      · exact Or.inr (List.mem_cons_of_mem kv h1)
    · rw [mapSet, if_neg hk] at hp
      rcases List.mem_cons.mp hp with h1 | h1
      · exact Or.inr (by simp [h1])
      · rcases ih p h1 with h2 | h2
        · exact Or.inl h2
        · exact Or.inr (List.mem_cons_of_mem kv h2)

/-- When the deletion branch succeeds, the deletion timestamp it keeps is
non-None only if the status it decides is Deleted. -/
theorem deletion_adjust_deleted (k8sPodPhases : Option (List (Option String)))
    (stored? : Option StoredRecord) (status : Option String)
    (creation : Option Int) (d : Int) (sd : Option String × Option Int)
    (hok : deletion_adjust k8sPodPhases stored? status creation d = Except.ok sd) :
    sd.2.isSome = true → sd.1 = some "Deleted" := by
  unfold deletion_adjust at hok
  cases stored? with
  | none => simp at hok
  | some stored =>
    cases hgt : pyGtOpt d stored.creation_timestamp with
    | error e => simp [hgt] at hok
    | ok a =>
      simp only [hgt, Except.ok.injEq] at hok
      subst hok
      intro hds
      by_cases hdel : deletion_status k8sPodPhases status
          (deletion_guard a creation d) = some "Deleted"
      · simpa using hdel
      · simp only at hds
        rw [if_pos hdel] at hds
        simp at hds

/-- A successful `update_or_create_status` call preserves the C10
invariant: the freshly written record carries a deletion timestamp only
when the deletion branch forced its status to Deleted, and all other
entries are unchanged. -/
theorem update_or_create_status_preserves_inv
    (k8sPodPhases : Option (List (Option String))) (m : StatusMap)
    (status release : Option String) (creation deletion : Option Int)
    (now : Int) (m' : StatusMap) (hinv : DeletionInvariant m)
    (hok : update_or_create_status k8sPodPhases m status release creation
      deletion now = Except.ok m') :
    DeletionInvariant m' := by
  unfold update_or_create_status at hok
  cases hcond : update_cond m release creation deletion with
  | error e => simp [hcond] at hok
  | ok cond =>
    cases cond with
    | false =>
      simp only [hcond, Except.ok.injEq] at hok
      subst hok
      exact hinv
    | true =>
      simp only [hcond] at hok
      cases deletion with
      | none =>
        simp only [Except.ok.injEq] at hok
        subst hok
        intro p hp
        rcases mapSet_mem m release _ p hp with h | h
        · subst h; intro hds; simp at hds
        · exact hinv p h
      | some d =>
        cases hadj : deletion_adjust k8sPodPhases (m.lookup release) status
            creation d with
        | error e => simp [hadj] at hok
        | ok sd =>
          simp only [hadj, Except.ok.injEq] at hok
          subst hok
          intro p hp
          rcases mapSet_mem m release _ p hp with h | h
          · subst h
            intro hds
            exact deletion_adjust_deleted k8sPodPhases (m.lookup release)
              status creation d sd hadj (by simpa using hds)
          · exact hinv p h

/-- One call of `update_or_create_status` as issued by `StatusData.update`
during a run: the arguments of the call and the Kubernetes oracle answer
for it. -/
structure UpdateCmd where
  status : Option String
  release : Option String
  creation_timestamp : Option Int
  deletion_timestamp : Option Int
  now : Int
  k8sPodPhases : Option (List (Option String))
  deriving Repr

/-- Runs a sequence of `update_or_create_status` calls.  An exception
aborts the sequence; the failing call has not mutated the map (the only
write in `update_or_create_status` happens after the raising subscript),
so the map of the last successful call remains. -/
def run_updates (m : StatusMap) : List UpdateCmd → StatusMap
  | [] => m
  | c :: cs =>
    match update_or_create_status c.k8sPodPhases m c.status c.release
      c.creation_timestamp c.deletion_timestamp c.now with
    | Except.ok m' => run_updates m' cs
    | Except.error _ => m

/-- C10: after every sequence of `update_or_create_status` calls starting
from a map satisfying the invariant (in particular from the empty map of
a fresh `StatusData`), every stored record has a non-None
deletion_timestamp only if its status is Deleted: a suppressed deletion
stores a cleared deletion timestamp. -/
theorem c10_deletion_invariant (cmds : List UpdateCmd) (m : StatusMap)
    (hinv : DeletionInvariant m) :
    DeletionInvariant (run_updates m cmds) := by
  induction cmds generalizing m with
  | nil => exact hinv
  | cons c cs ih =>
    rw [run_updates]
    cases hcall : update_or_create_status c.k8sPodPhases m c.status c.release
        c.creation_timestamp c.deletion_timestamp c.now with
    | ok m' =>
      exact ih m' (update_or_create_status_preserves_inv c.k8sPodPhases m
        c.status c.release c.creation_timestamp c.deletion_timestamp c.now m'
        hinv hcall)
    | error e => exact hinv

/-- Witness for C10: a concrete run from the empty map in which a
deletion for a release with other pods still present is suppressed, then
a deletion with a single remaining pod goes through. -/
theorem c10_deletion_invariant_witness :
    DeletionInvariant (run_updates []
      [ { status := some "Running", release := some "r1",
          creation_timestamp := some 100, deletion_timestamp := none,
          now := 1000, k8sPodPhases := none },
        { status := some "Terminated", release := some "r1",
          creation_timestamp := some 100, deletion_timestamp := some 900,
          now := 2000,
          k8sPodPhases := some [some "Running", some "Terminating"] },
        { status := some "Terminated", release := some "r1",
          creation_timestamp := some 100, deletion_timestamp := some 950,
          now := 3000, k8sPodPhases := some [some "Terminating"] } ]) :=
  c10_deletion_invariant _ [] (by decide)

/-! ### Claim C1: per-event processing of the watch loop

Embedding of the `for event in self.watch.stream(...)` body of
`EventListener.listen` together with `StatusData.update`.  The pod object
carried by a watch event is projected onto the fields the code reads. -/

/-- Embeds `pod.metadata` as read by `listen` and `StatusData.update`:
`labels_release` is `metadata.labels.get("release")`. -/
structure PodMeta where
  labels_release : Option String
  creation_timestamp : Option Int
  deletion_timestamp : Option Int
  resource_version : String
  deriving Repr

/-- Embeds the pod object of a watch event. -/
structure PodView where
  metadata : PodMeta
  status : PodK8sStatus
  deriving Repr

/-- Embeds `StatusData.update` for an event that carries a pod object:
derive the status, call `update_or_create_status`, then write the
`pod-msg` and `container-msg` keys of the release entry. -/
def statusData_update (k8sPodPhases : Option (List (Option String)))
    (m : StatusMap) (pod : PodView) (now : Int) : Except PyError StatusMap :=
  let release := pod.metadata.labels_release
  let r := determine_status_from_k8s pod.status
  match update_or_create_status k8sPodPhases m r.1 release
    pod.metadata.creation_timestamp pod.metadata.deletion_timestamp now with
  | Except.error e => Except.error e
  | Except.ok m1 =>
      match m1.lookup release with
      | some rec0 =>
          Except.ok (mapSet m1 release
            { rec0 with pod_msg := some r.2.2, container_msg := some r.2.1 })
      | none => Except.error PyError.keyError

/-- Modelled from the spec: `StatusData.get_status_record` is called by
`EventListener.listen` (line 194) and by the repository tests, but the
method is absent from the `StatusData` class in the sources; per spec
section 4.3 the reducer exposes `latest()`, returning the record of the
release with the maximum `event-ts` (`get_latest_release` picks the first
maximal release in insertion order, as Python `max` does). -/
def get_status_record : StatusMap → Option (Option String × StoredRecord)
  | [] => none
  | kv :: rest =>
    match get_status_record rest with
    | none => some kv
    | some kv' =>
        if kv'.2.event_ts > kv.2.event_ts then some kv' else some kv

/-- Embeds the body of the `for event in self.watch.stream(...)` loop of
`EventListener.listen`: the stored resource version is assigned from the
event object first, then the reducer runs and the latest record is
enqueued.  The first component is the new resource version (assigned
before anything can raise); the second is either the new map together
with the enqueued record, or the Python exception that escapes the loop
body. -/
def listen_step (k8sPodPhases : Option (List (Option String)))
    (m : StatusMap) (pod : PodView) (now : Int) :
    String × Except PyError (StatusMap × (Option String × StoredRecord)) :=
  (pod.metadata.resource_version,
    match statusData_update k8sPodPhases m pod now with
    | Except.error e => Except.error e
    | Except.ok m1 =>
        match get_status_record m1 with
        | some kv => Except.ok (m1, kv)
        | none => Except.error PyError.valueError)

/-- Pod of the C1 failing input: the first watch event ever seen for
release r1234567 is a deletion (terminated container, deletion timestamp
set), exactly the situation of the repository test
`test_pod_delete_nonexisting_pod`. -/
def c1Pod : PodView :=
  { metadata := { labels_release := some "r1234567",
                  creation_timestamp := some 100,
                  deletion_timestamp := some 900,
                  resource_version := "rv-42" },
    status := { message := none, phase := none,
                init_container_statuses := none,
                container_statuses := some
                  [ { terminated := some { reason := some "Terminated",
                                           message := some "Deleted" },
                      waiting := none, running := false, ready := false } ] } }

/-- C1: the claim says every delivered event updates the cursor, runs the
reducer, enqueues the latest record and continues, never stopping the
loop or the egress queue.  On the first event of a release that carries a
deletion timestamp the reducer raises KeyError, which only the catch-all
`except Exception` clause of `listen` matches: that clause stops the
egress queue and breaks the loop. -/
theorem c1_event_key_error_stops_loop :
    (listen_step none [] c1Pod 5000).1 = "rv-42"
    ∧ (listen_step none [] c1Pod 5000).2 = Except.error PyError.keyError
    ∧ (handle_listen_error (listen_error_class PyError.keyError)
        (some "rv-42") 0).stop_queue_and_break = true := by
  refine ⟨rfl, rfl, rfl⟩

/-- Companion fact for C1: on an event whose release is already tracked
(or which carries no deletion timestamp) the loop body behaves as the
claim says: the cursor is set from the event, the reducer output map is
produced, and the latest record is handed to the egress queue. -/
theorem c1_normal_event_enqueues (k8sPodPhases : Option (List (Option String)))
    (m : StatusMap) (pod : PodView) (now : Int) (m1 : StatusMap)
    (hup : statusData_update k8sPodPhases m pod now = Except.ok m1)
    (kv : Option String × StoredRecord)
    (hlatest : get_status_record m1 = some kv) :
    listen_step k8sPodPhases m pod now =
      (pod.metadata.resource_version, Except.ok (m1, kv)) := by
  simp only [listen_step, hup, hlatest]

/-- Pod of the C1 witness: the same terminated container but with no
deletion timestamp, so the reducer inserts the record normally. -/
def c1WitnessPod : PodView :=
  { c1Pod with metadata := ⟨some "r1234567", some 100, none, "rv-41"⟩ }

/-- Witness for the C1 companion fact at a concrete creation event. -/
theorem c1_normal_event_enqueues_witness :
    listen_step none [] c1WitnessPod 4000 =
      ("rv-41", Except.ok
        ([(some "r1234567",
            { creation_timestamp := some 100, deletion_timestamp := none,
              status := some "Terminated", event_ts := 4000, sent := false,
              pod_msg := some "", container_msg := some "Deleted" })],
          (some "r1234567",
            { creation_timestamp := some 100, deletion_timestamp := none,
              status := some "Terminated", event_ts := 4000, sent := false,
              pod_msg := some "", container_msg := some "Deleted" }))) :=
  c1_normal_event_enqueues none [] c1WitnessPod 4000
    [(some "r1234567",
      { creation_timestamp := some 100, deletion_timestamp := none,
        status := some "Terminated", event_ts := 4000, sent := false,
        pod_msg := some "", container_msg := some "Deleted" })] rfl
    ((some "r1234567",
      { creation_timestamp := some 100, deletion_timestamp := none,
        status := some "Terminated", event_ts := 4000, sent := false,
        pod_msg := some "", container_msg := some "Deleted" })) rfl

/-! ### Claim C2: EventListener.setup

Embedding of `EventListener.setup` (`event_listener.py`, lines 98-138).
The external steps (ping check, Kubernetes client setup, token fetch) are
oracles.  The keyword sets below are taken verbatim from the two source
signatures involved in the prober construction. -/

/-- Keyword parameters accepted by `AppAvailabilityProbe.__init__`
(`probing.py`, lines 37-43): `session` is positional and the keyword-only
parameters are `timeout` and `backoff_seconds`; there is no `**kwargs`. -/
def appAvailabilityProbe_init_keywords : List String :=
  ["timeout", "backoff_seconds"]

/-- Keyword arguments passed by `EventListener.setup` when constructing
the prober (`event_listener.py`, lines 119-124). -/
def setup_prober_call_keywords : List String :=
  ["verify_tls", "timeout", "backoff_seconds"]

/-- Calling a Python function with a keyword argument its signature does
not accept raises TypeError before the body runs. -/
def construct_prober (kwargs : List String) : Except PyError Unit :=
  if kwargs.all (fun kw => appAvailabilityProbe_init_keywords.contains kw) then
    Except.ok ()
  else Except.error PyError.typeError

/-- Embeds the validation in `StatusQueue.__init__`: an empty token or a
non-absolute URL raises ValueError. -/
def statusQueue_init (token : String) (url_absolute : Bool) :
    Except PyError Unit :=
  if token = "" then Except.error PyError.valueError
  else if url_absolute = false then Except.error PyError.valueError
  else Except.ok ()

/-- Observable outcome of `EventListener.setup`. -/
structure SetupState where
  setup_complete : Bool
  token : Option String
  prober_constructed : Bool
  queue_constructed : Bool
  deriving DecidableEq, Repr

/-- Embeds `EventListener.setup`: a failed ping check returns early; any
exception from the remaining steps is caught by the blanket
`except Exception` and leaves `setup_complete` False.  The
`set_k8s_api_client` call between the token fetch and the prober
construction is a pair of attribute assignments and cannot raise, so it
is not represented. -/
def setup (pingOk : Bool) (clientInit : Except PyError Unit)
    (tokenFetch : Except PyError String) (url_absolute : Bool) : SetupState :=
  if pingOk = false then ⟨false, none, false, false⟩
  else
    match clientInit with
    | Except.error _ => ⟨false, none, false, false⟩
    | Except.ok () =>
        match tokenFetch with
        | Except.error _ => ⟨false, none, false, false⟩
        | Except.ok tok =>
            match construct_prober setup_prober_call_keywords with
            | Except.error _ => ⟨false, some tok, false, false⟩
            | Except.ok () =>
                match statusQueue_init tok url_absolute with
                | Except.error _ => ⟨false, some tok, true, false⟩
                | Except.ok () => ⟨true, some tok, true, true⟩

/-- C2: the claim says that when the ping check succeeds, the client
initializes and the token fetch returns a token, setup constructs the
prober and the queue and sets setup_complete to True.  The prober
construction passes `verify_tls=`, which `AppAvailabilityProbe.__init__`
does not accept, so TypeError is raised and swallowed by setup's blanket
except clause: setup_complete stays False and neither the prober nor the
queue is ever constructed (the unit test `test_setup_constructs_queue`
asserts the claimed behaviour and fails against this code). -/
theorem c2_setup_never_completes :
    construct_prober setup_prober_call_keywords = Except.error PyError.typeError
    ∧ setup true (Except.ok ()) (Except.ok "T1") true =
        { setup_complete := false, token := some "T1",
          prober_constructed := false, queue_constructed := false }
    ∧ (setup true (Except.ok ()) (Except.ok "T1") true).setup_complete ≠ true := by
  refine ⟨rfl, rfl, ?_⟩
  decide

/-! ### Egress queue

Embedding of one iteration of `StatusQueue.process`
(`serve_event_listener/status_queue.py`) on a single popped record.
Module constants are gathered in `QueueConfig` (`prober present`,
`APP_PROBE_STATUSES`, `APP_PROBE_APPS`, `NXDOMAIN_CONFIRMATION_COUNT`);
times are epoch milliseconds, and the string `event-ts` field is
modelled by its parsed value (`none` when absent or unparseable, the
cases where `_parse_event_ts` returns None).  The probe oracle is the
`ProbeResult` the prober would return for the single probe attempt an
iteration can make. -/

/-- Module-level configuration read by `StatusQueue.process`. -/
structure QueueConfig where
  prober_present : Bool
  app_probe_statuses : List String
  app_probe_apps : List String
  nxdomain_confirmation_count : Nat
  deriving DecidableEq, Repr

/-- A queued record with the keys `process` reads: `new-status`,
`app-type`, `app-url`, `event-ts`, and the transient fields `_nx_consec`
(absent is equivalent to 0), `_probe-deadline-epoch`, `_probe-next-epoch`
and `curl-probe`. -/
structure QRecord where
  release : Option String
  new_status : Option String
  app_type : Option String
  app_url : Option String
  event_ts : Option Int
  nx_consec : Nat
  probe_deadline_epoch : Option Int
  probe_next_epoch : Option Int
  curl_probe : Option ProbeResult
  deriving DecidableEq, Repr

/-- Embeds the Python `str.lower()` for the ASCII strings the queue
compares (status and app-type values). -/
def pyLower (s : String) : String :=
  String.mk (s.data.map Char.toLower)

/-- Embeds `status_lc = (rec.get("new-status") or "").lower()`. -/
def status_lc (rec : QRecord) : String :=
  pyLower (rec.new_status.getD "")

/-- Embeds the Python truthiness of `rec.get("app-url")`. -/
def app_url_truthy (rec : QRecord) : Bool :=
  match rec.app_url with
  | some s => decide (s ≠ "")
  | none => false

/-- Embeds `StatusQueue._probe_enabled_for`. -/
def probe_enabled_for (cfg : QueueConfig) (rec : QRecord) : Bool :=
  cfg.prober_present && !cfg.app_probe_statuses.isEmpty &&
    cfg.app_probe_statuses.contains (status_lc rec) &&
    cfg.app_probe_apps.contains (pyLower (rec.app_type.getD "")) &&
    app_url_truthy rec

/-- Probe window per status (`StatusQueue._probe_cfg_for`), in ms. -/
def probe_window (slc : String) : Int :=
  if slc = "running" then 180000 else if slc = "deleted" then 30000 else 0

/-- Probe retry interval per status (`StatusQueue._probe_cfg_for`). -/
def probe_interval (slc : String) : Int :=
  if slc = "running" then 10000 else if slc = "deleted" then 5000 else 0

/-- Embeds `StatusQueue._ensure_deadline`: a stored deadline is kept,
otherwise the deadline is the parsed event time (or now) plus the
window. -/
def ensure_deadline (rec : QRecord) (slc : String) (now : Int) :
    QRecord × Option Int :=
  if probe_window slc ≤ 0 then (rec, none)
  else
    match rec.probe_deadline_epoch with
    | some dl => (rec, some dl)
    | none =>
        let dl := rec.event_ts.getD now + probe_window slc
        ({ rec with probe_deadline_epoch := some dl }, some dl)

/-- Embeds `StatusQueue._allow_probe_now`. -/
def allow_probe_now (rec : QRecord) (now : Int) : Bool :=
  match rec.probe_next_epoch with
  | none => true
  | some t => decide (now ≥ t)

/-- Embeds `StatusQueue._schedule_next_probe`. -/
def schedule_next_probe (rec : QRecord) (slc : String) (now : Int) : QRecord :=
  { rec with probe_next_epoch := some (now + max 0 (probe_interval slc)) }

/-- Outcome of one `process` iteration for one record: requeue it (with
its mutated transient fields) or proceed to the POST step. -/
inductive StepResult where
  | requeue (rec : QRecord)
  | post (rec : QRecord)
  deriving DecidableEq, Repr

/-- Body of the probing path once `_ensure_deadline` has run: `recD` is
the record with the deadline field ensured and `dl?` the returned
deadline. -/
def probe_branch_core (cfg : QueueConfig) (recD : QRecord) (dl? : Option Int)
    (slc : String) (now : Int) (probe : ProbeResult) : QRecord × Bool :=
  match dl? with
  | some dl =>
      if now < dl then
        if allow_probe_now recD now then
          let recP := { recD with curl_probe := some probe }
          if slc = "running" then
            if probe.status ≠ ProbeStatusT.running then
              (schedule_next_probe recP slc now, true)
            else (recP, false)
          else
            if probe.status = ProbeStatusT.notFound then
              let recN := { recP with nx_consec := recP.nx_consec + 1 }
              if recN.nx_consec < cfg.nxdomain_confirmation_count then
                (schedule_next_probe recN slc now, true)
              else (recN, false)
            else
              (schedule_next_probe { recP with nx_consec := 0 } slc now, true)
        else (recD, true)
      else (recD, false)
  | none => (recD, false)

/-- Embeds the probing path of `StatusQueue.process` (the body of the
`if status_lc in ... and self._probe_enabled_for(rec)` block), returning
the mutated record and the `requeue` flag. -/
def probe_branch (cfg : QueueConfig) (rec : QRecord) (slc : String)
    (now : Int) (probe : ProbeResult) : QRecord × Bool :=
  probe_branch_core cfg (ensure_deadline rec slc now).1
    (ensure_deadline rec slc now).2 slc now probe

/-- Embeds one iteration of `StatusQueue.process` on one popped record:
the gated probing path, then the legacy under-30-s grace for Deleted when
probing is not configured for deleted, then the requeue-or-POST
decision. -/
def process_one (cfg : QueueConfig) (rec : QRecord) (now : Int)
    (probe : ProbeResult) : StepResult :=
  let slc := status_lc rec
  let pb :=
    if (slc = "running" || slc = "deleted") && probe_enabled_for cfg rec then
      probe_branch cfg rec slc now probe
    else (rec, false)
  let requeue2 :=
    if slc = "deleted" && !(cfg.app_probe_statuses.contains "deleted") && !pb.2 then
      match pb.1.event_ts with
      | some evt => decide (now - evt < 30000)
      | none => false
    else pb.2
  if requeue2 = true then StepResult.requeue pb.1 else StepResult.post pb.1

/-- The probe deadline `process` uses for a Deleted record: the stored
transient deadline if present, else event time (or now) plus the 30 s
window. -/
def deleted_deadline (rec : QRecord) (now : Int) : Int :=
  rec.probe_deadline_epoch.getD (rec.event_ts.getD now + 30000)

/-! ### Claim C5: when a Deleted record is POSTed -/

/-- Configuration of the C5 counterexample: prober present, probing
configured for running and deleted, default apps and confirmation
count. -/
def c5Config : QueueConfig :=
  { prober_present := true, app_probe_statuses := ["running", "deleted"],
    app_probe_apps := ["shiny", "shiny-proxy"],
    nxdomain_confirmation_count := 2 }

/-- Record of the C5 counterexample: a fresh Deleted record of a probed
app type whose `app-url` key is absent (as for every record produced by
`listen`, which never sets `app-url`). -/
def c5Record : QRecord :=
  { release := some "r1", new_status := some "Deleted",
    app_type := some "shiny", app_url := none, event_ts := some 0,
    nx_consec := 0, probe_deadline_epoch := none, probe_next_epoch := none,
    curl_probe := none }

/-- Probe oracle of the C5 counterexample (never consulted). -/
def c5Probe : ProbeResult :=
  { status := ProbeStatusT.unknown, port80_status := none, note := "" }

/-- C5 counterexample: at time 0 (zero seconds after the event) the
Deleted record is POSTed immediately although the prober never returned
NotFound, probing for deleted is configured (so no legacy grace applies),
and the 30 s probe window has not elapsed: the per-record gate fails on
the missing `app-url`, the probing path is skipped, and the legacy grace
is skipped because `deleted` is in `APP_PROBE_STATUSES`. -/
theorem c5_gate_failure_counterexample :
    process_one c5Config c5Record 0 c5Probe = StepResult.post c5Record
    ∧ ¬ ((c5Probe.status = ProbeStatusT.notFound ∧
          c5Config.nxdomain_confirmation_count ≤ c5Record.nx_consec + 1)
        ∨ ((c5Config.prober_present = false ∨
            c5Config.app_probe_statuses.contains "deleted" = false) ∧
            30000 ≤ (0 : Int) - 0)
        ∨ deleted_deadline c5Record 0 ≤ 0) := by
  constructor
  · rfl
  · decide

/-- The probing path keeps `requeue = false` for a Deleted record only on
the two accepting paths: past the deadline, or a NotFound probe that
reaches the confirmation count inside the window. -/
theorem probe_branch_deleted_post (cfg : QueueConfig) (rec : QRecord)
    (now : Int) (probe : ProbeResult)
    (h : (probe_branch cfg rec "deleted" now probe).2 = false) :
    deleted_deadline rec now ≤ now
    ∨ (now < deleted_deadline rec now ∧ allow_probe_now rec now = true ∧
        probe.status = ProbeStatusT.notFound ∧
        cfg.nxdomain_confirmation_count ≤ rec.nx_consec + 1) := by
  have hwin : ¬ (probe_window "deleted" ≤ 0) := by
    rw [probe_window, if_neg (by decide : ¬ (("deleted" : String) = "running")),
      if_pos rfl]
    norm_num
  have hdd : (ensure_deadline rec "deleted" now).2 =
      some (deleted_deadline rec now) := by
    simp only [ensure_deadline, if_neg hwin, deleted_deadline]
    cases hdl : rec.probe_deadline_epoch with
    | some dl => simp [hdl, probe_window]
    | none => simp [hdl, probe_window]
  have hnext : (ensure_deadline rec "deleted" now).1.probe_next_epoch =
      rec.probe_next_epoch := by
    simp only [ensure_deadline, if_neg hwin]
    cases hdl : rec.probe_deadline_epoch with
    | some dl => rfl
    | none => rfl
  have hnx : (ensure_deadline rec "deleted" now).1.nx_consec = rec.nx_consec := by
    simp only [ensure_deadline, if_neg hwin]
    cases hdl : rec.probe_deadline_epoch with
    | some dl => rfl
    | none => rfl
  have hallow : allow_probe_now (ensure_deadline rec "deleted" now).1 now =
      allow_probe_now rec now := by
    simp only [allow_probe_now, hnext]
  rw [probe_branch, hdd] at h
  rw [probe_branch_core] at h
  by_cases hlt : now < deleted_deadline rec now
  · rw [if_pos hlt] at h
    by_cases hal : allow_probe_now (ensure_deadline rec "deleted" now).1 now = true
    · rw [if_pos hal] at h
      rw [if_neg (by decide : ¬ (("deleted" : String) = "running"))] at h
      by_cases hnf : probe.status = ProbeStatusT.notFound
      · rw [if_pos hnf] at h
        by_cases hcnt :
            ({ (ensure_deadline rec "deleted" now).1 with
                curl_probe := some probe }.nx_consec + 1 <
              cfg.nxdomain_confirmation_count)
        · rw [if_pos hcnt] at h
          simp at h
        · rw [if_neg hcnt] at h
          refine Or.inr ⟨hlt, hallow ▸ hal, hnf, ?_⟩
          simp only [hnx] at hcnt
          omega
      · rw [if_neg hnf] at h
        simp at h
    · rw [if_neg hal] at h
      simp at h
  · exact Or.inl (by omega)

/-- C5 amended: a record with status Deleted (case-insensitive) is POSTed
by one iteration of `StatusQueue.process` exactly when one of these
holds: (a) probing applies to the record and the probe returned NotFound
now, bringing the consecutive count to at least
NXDOMAIN_CONFIRMATION_COUNT, inside the deleted window; (c) probing
applies and the window deadline has passed; (b') probing is not
configured for deleted (`deleted` absent from APP_PROBE_STATUSES) and the
record's event-ts is at least 30 s old or missing/unparseable; or (d)
`deleted` is in APP_PROBE_STATUSES but the per-record gate fails (no
prober, app type not probed, or no `app-url` on the record - the usual
case, since `listen` never sets `app-url`), in which case the record is
POSTed immediately with no probe and no grace. -/
theorem c5_deleted_post_conditions (cfg : QueueConfig) (rec : QRecord)
    (now : Int) (probe : ProbeResult) (rec' : QRecord)
    (hst : status_lc rec = "deleted")
    (hpost : process_one cfg rec now probe = StepResult.post rec') :
    (probe_enabled_for cfg rec = true ∧ deleted_deadline rec now ≤ now)
    ∨ (probe_enabled_for cfg rec = true ∧ now < deleted_deadline rec now ∧
        allow_probe_now rec now = true ∧ probe.status = ProbeStatusT.notFound ∧
        cfg.nxdomain_confirmation_count ≤ rec.nx_consec + 1)
    ∨ (probe_enabled_for cfg rec = false ∧
        cfg.app_probe_statuses.contains "deleted" = false ∧
        ((∃ evt, rec.event_ts = some evt ∧ 30000 ≤ now - evt) ∨
          rec.event_ts = none))
    ∨ (probe_enabled_for cfg rec = false ∧
        cfg.app_probe_statuses.contains "deleted" = true) := by
  have hg1 : decide (("deleted" : String) = "running") = false := by decide
  have hg2 : decide (("deleted" : String) = "deleted") = true := by decide
  simp only [process_one, hst, hg1, hg2, decide_True, decide_False,
    Bool.false_or, Bool.true_and] at hpost
  by_cases henb : probe_enabled_for cfg rec = true
  · have hcontains : cfg.app_probe_statuses.contains "deleted" = true := by
      have h2 := henb
      rw [probe_enabled_for, hst] at h2
      simp only [Bool.and_eq_true] at h2
      exact h2.1.1.2
    rw [if_pos henb] at hpost
    simp only [hcontains, Bool.not_true, Bool.and_false, Bool.false_and] at hpost
    rw [if_neg Bool.false_eq_true_eq_False] at hpost
    by_cases hrq : (probe_branch cfg rec "deleted" now probe).2 = true
    · rw [if_pos hrq] at hpost
      simp at hpost
    · rw [if_neg hrq] at hpost
      have hb := probe_branch_deleted_post cfg rec now probe
        (Bool.not_eq_true _ ▸ hrq)
      rcases hb with hdl | hconf
      · exact Or.inl ⟨henb, hdl⟩
      · exact Or.inr (Or.inl ⟨henb, hconf.1, hconf.2.1, hconf.2.2.1,
          hconf.2.2.2⟩)
  · have henbf : probe_enabled_for cfg rec = false := by
      cases hb : probe_enabled_for cfg rec with
      | true => exact absurd hb henb
      | false => rfl
    rw [if_neg henb] at hpost
    by_cases hctn : cfg.app_probe_statuses.contains "deleted" = true
    · simp only [hctn, Bool.not_true, Bool.and_false, Bool.false_and]
        at hpost
      exact Or.inr (Or.inr (Or.inr ⟨henbf, hctn⟩))
    · have hctnf : cfg.app_probe_statuses.contains "deleted" = false := by
        cases hb : cfg.app_probe_statuses.contains "deleted" with
        | true => exact absurd hb hctn
        | false => rfl
      simp only [hctnf, Bool.not_false, Bool.and_true, Bool.true_and]
        at hpost
      cases hev : rec.event_ts with
      | none =>
        exact Or.inr (Or.inr (Or.inl ⟨henbf, hctnf, Or.inr rfl⟩))
      | some evt =>
        simp only [hev] at hpost
        by_cases hlt : now - evt < 30000
        · rw [if_pos (by simpa using hlt)] at hpost
          simp at hpost
        · exact Or.inr (Or.inr (Or.inl ⟨henbf, hctnf,
            Or.inl ⟨evt, rfl, by omega⟩⟩))

/-- Witness for C5 amended at the concrete gate-failure input: the
conclusion evaluates to the fourth disjunct. -/
theorem c5_deleted_post_conditions_witness :
    (probe_enabled_for c5Config c5Record = true ∧
      deleted_deadline c5Record 0 ≤ 0)
    ∨ (probe_enabled_for c5Config c5Record = true ∧
        0 < deleted_deadline c5Record 0 ∧
        allow_probe_now c5Record 0 = true ∧
        c5Probe.status = ProbeStatusT.notFound ∧
        c5Config.nxdomain_confirmation_count ≤ c5Record.nx_consec + 1)
    ∨ (probe_enabled_for c5Config c5Record = false ∧
        c5Config.app_probe_statuses.contains "deleted" = false ∧
        ((∃ evt, c5Record.event_ts = some evt ∧ 30000 ≤ (0 : Int) - evt) ∨
          c5Record.event_ts = none))
    ∨ (probe_enabled_for c5Config c5Record = false ∧
        c5Config.app_probe_statuses.contains "deleted" = true) :=
  c5_deleted_post_conditions c5Config c5Record 0 c5Probe c5Record
    (by decide) (by decide)

end ServeEventListener
